import Mathlib

/-!
Shallow embedding of the Pose Coaching Engine of this repository
(`web/js/utils.js` and `web/js/pose-coach.js`).

Conventions of the embedding:
* JavaScript numbers are modelled as real numbers (`ℝ`); the geometry uses
  `Real.sqrt`, `Real.arccos` and `Real.pi` for `Math.sqrt`, `Math.acos`,
  `Math.PI`.
* A possibly-null landmark array is `Option (List Point)`.
* A JavaScript function that can throw is modelled with `Except Unit`;
  a `TypeError` (reading `.x` of `undefined`) is `.error ()`.
* `Date.now()` and `Math.random()` are threaded as explicit parameters
  (`now : ℕ`, and a pool index for the random motivational pick).
* Voice side effects (`this.speak(...)` calls and the voice bookkeeping
  fields) are omitted: they influence neither the returned feedback nor
  any field modelled here.
-/

namespace PoseVerification

/-- A 2D point, the `{x, y}` objects of `utils.js`. -/
@[ext]
structure Point where
  x : ℝ
  y : ℝ

/-- The magnitude `Math.sqrt(v.x ** 2 + v.y ** 2)` of the vector from `q`
to `p`, as `calculateAngle` computes it for BA and BC. -/
noncomputable def segMagnitude (p q : Point) : ℝ :=
  Real.sqrt ((p.x - q.x) ^ 2 + (p.y - q.y) ^ 2)

/-- `calculateAngle(pointA, pointB, pointC)` of `utils.js` (lines 13-47):
vectors BA and BC, dot product, magnitudes, zero-magnitude guard, clamp of
the cosine to `[-1, 1]` via `Math.max(-1, Math.min(1, c))`, `acos`,
conversion to degrees. -/
noncomputable def calculateAngle (pointA pointB pointC : Point) : ℝ :=
  if segMagnitude pointA pointB = 0 ∨ segMagnitude pointC pointB = 0 then 0
  else
    let dotProduct :=
      (pointA.x - pointB.x) * (pointC.x - pointB.x) +
        (pointA.y - pointB.y) * (pointC.y - pointB.y)
    let cosineAngle :=
      max (-1) (min 1 (dotProduct / (segMagnitude pointA pointB * segMagnitude pointC pointB)))
    Real.arccos cosineAngle * (180 / Real.pi)

/-- `getLandmarkCoordinates(landmarks, landmarkIndex)` of `utils.js`
(lines 55-65).  The guard is `!landmarks || landmarkIndex >= landmarks.length`.
A negative index passes that guard, `landmarks[negative]` is `undefined`,
and reading `.x` on it throws a `TypeError`, modelled as `.error ()`. -/
def getLandmarkCoordinates (landmarks : Option (List Point)) (landmarkIndex : ℤ) :
    Except Unit Point :=
  match landmarks with
  | none => .ok ⟨0, 0⟩
  | some lms =>
      if (lms.length : ℤ) ≤ landmarkIndex then .ok ⟨0, 0⟩
      else if 0 ≤ landmarkIndex then
        .ok (lms.getD landmarkIndex.toNat ⟨0, 0⟩)
      else .error ()

/-- Every in-repository call site passes a constant natural-number index, for
which `getLandmarkCoordinates` never throws; this is the total specialisation
those call sites see (the surrounding `try`/`catch` blocks are dead there). -/
def getCoord (lms : List Point) (i : ℕ) : Point :=
  match getLandmarkCoordinates (some lms) (i : ℤ) with
  | .ok p => p
  | .error _ => ⟨0, 0⟩

/-- The `angles` dictionary built by `verifyPosture` (`utils.js` lines 74-79). -/
structure AngleSet where
  elbow_angle_left : ℝ
  elbow_angle_right : ℝ
  shoulder_hip_ankle_angle_left : ℝ
  shoulder_hip_ankle_angle_right : ℝ

/-- `verifyPosture(landmarks, exerciseType)` of `utils.js` (lines 73-125).
Landmark indices: 11/12 shoulders, 13/14 elbows, 15/16 wrists, 23/24 hips,
27/28 ankles.  The `try`/`catch` cannot fire (all indices are natural
numbers), so it is not modelled. -/
noncomputable def verifyPosture (landmarks : Option (List Point)) (exerciseType : String) :
    AngleSet :=
  match landmarks with
  | none => ⟨0, 0, 0, 0⟩
  | some lms =>
      if lms.length = 0 then ⟨0, 0, 0, 0⟩
      else if exerciseType = "pushup" then
        { elbow_angle_left :=
            calculateAngle (getCoord lms 11) (getCoord lms 13) (getCoord lms 15)
          elbow_angle_right :=
            calculateAngle (getCoord lms 12) (getCoord lms 14) (getCoord lms 16)
          shoulder_hip_ankle_angle_left := 0
          shoulder_hip_ankle_angle_right := 0 }
      else if exerciseType = "handstand" then
        { elbow_angle_left :=
            calculateAngle (getCoord lms 11) (getCoord lms 13) (getCoord lms 15)
          elbow_angle_right :=
            calculateAngle (getCoord lms 12) (getCoord lms 14) (getCoord lms 16)
          shoulder_hip_ankle_angle_left :=
            calculateAngle (getCoord lms 11) (getCoord lms 23) (getCoord lms 27)
          shoulder_hip_ankle_angle_right :=
            calculateAngle (getCoord lms 12) (getCoord lms 24) (getCoord lms 28) }
      else ⟨0, 0, 0, 0⟩

/-- One exercise's bucket of reference ranges (`utils.js` lines 131-141);
`none` means the bucket is absent for that exercise. -/
structure ExerciseRef where
  elbow_angle : Option (ℝ × ℝ)
  shoulder_hip_ankle_angle : Option (ℝ × ℝ)

/-- `loadReferenceData()` of `utils.js` (lines 131-141). -/
def loadReferenceData : String → Option ExerciseRef := fun exerciseType =>
  if exerciseType = "pushup" then
    some { elbow_angle := some (90, 120), shoulder_hip_ankle_angle := none }
  else if exerciseType = "handstand" then
    some { elbow_angle := some (160, 180), shoulder_hip_ankle_angle := some (170, 180) }
  else none

/-- JavaScript `String.prototype.includes`: substring containment. -/
def strIncludes (s sub : String) : Bool :=
  decide (List.IsInfix sub.toList s.toList)

/-- The key/value entries of an `AngleSet`, in the insertion order of the
`angles` object literal of `verifyPosture`. -/
def angleEntries (angles : AngleSet) : List (String × ℝ) :=
  [("elbow_angle_left", angles.elbow_angle_left),
   ("elbow_angle_right", angles.elbow_angle_right),
   ("shoulder_hip_ankle_angle_left", angles.shoulder_hip_ankle_angle_left),
   ("shoulder_hip_ankle_angle_right", angles.shoulder_hip_ankle_angle_right)]

/-- The inclusive range test `angleValue >= minAngle && angleValue <= maxAngle`. -/
noncomputable def inRangeIncl (v lo hi : ℝ) : Bool :=
  decide (lo ≤ v) && decide (v ≤ hi)

/-- `checkPostureCorrectness(angles, exerciseType)` of `utils.js`
(lines 149-170): the result dictionary is the list of produced
`(angleName, boolean)` entries, in iteration order. -/
noncomputable def checkPostureCorrectness (angles : AngleSet) (exerciseType : String) :
    List (String × Bool) :=
  match loadReferenceData exerciseType with
  | none => []
  | some exerciseRef =>
      (angleEntries angles).filterMap fun e =>
        if strIncludes e.1 "elbow_angle" && exerciseRef.elbow_angle.isSome then
          match exerciseRef.elbow_angle with
          | some (lo, hi) => some (e.1, inRangeIncl e.2 lo hi)
          | none => none
        else if strIncludes e.1 "shoulder_hip_ankle" &&
            exerciseRef.shoulder_hip_ankle_angle.isSome then
          match exerciseRef.shoulder_hip_ankle_angle with
          | some (lo, hi) => some (e.1, inRangeIncl e.2 lo hi)
          | none => none
        else none

/-- The per-frame feedback objects of `pose-coach.js`:
`{ primaryFeedback, tips, priority, motivational }`. -/
structure Feedback where
  primaryFeedback : String
  tips : List String
  priority : String
  motivational : String
deriving DecidableEq

/-- A frame-history entry (`pose-coach.js` lines 177-181):
`{ timestamp, feedback, angles }`. -/
structure Entry where
  timestamp : ℕ
  feedback : Feedback
  angles : AngleSet

/-- `this.exerciseState.pushup` (`pose-coach.js` line 152). -/
structure PushupState where
  position : String
  repCount : ℕ
  lastRepTime : ℕ
deriving DecidableEq

/-- `this.exerciseState.handstand` (`pose-coach.js` line 153). -/
structure HandstandState where
  isInHandstand : Bool
  entryTime : ℕ
  repCount : ℕ
deriving DecidableEq

/-- The initial push-up state `{ position: 'up', repCount: 0, lastRepTime: 0 }`. -/
def pushupStateInit : PushupState := ⟨"up", 0, 0⟩

/-- The initial handstand state
`{ isInHandstand: false, entryTime: 0, repCount: 0 }`. -/
def handstandStateInit : HandstandState := ⟨false, 0, 0⟩

/-- The rep-counting update of `analyzePushup` (`pose-coach.js` lines 239-265):
`down → up` when the mean elbow angle exceeds 160 (rep counted, timestamped),
`up → down` when it drops below 90. -/
noncomputable def pushupStep (now : ℕ) (leftElbow rightElbow : ℝ) (s : PushupState) :
    PushupState :=
  let avgElbow := (leftElbow + rightElbow) / 2
  if avgElbow > 160 ∧ s.position = "down" then
    { position := "up", repCount := s.repCount + 1, lastRepTime := now }
  else if avgElbow < 90 ∧ s.position = "up" then
    { s with position := "down" }
  else s

/-- `checkPushupBodyAlignment` (`pose-coach.js` lines 416-432); the `catch`
branch is dead for list inputs (`getCoord` is total). -/
noncomputable def checkPushupBodyAlignment (landmarks : List Point) : Bool :=
  let shoulder := getCoord landmarks 11
  let hip := getCoord landmarks 23
  let ankle := getCoord landmarks 27
  let shoulderHipDistance := |shoulder.y - hip.y|
  let hipAnkleDistance := |hip.y - ankle.y|
  decide (shoulderHipDistance < 0.1) && decide (hipAnkleDistance < 0.1)

/-- `checkHeadPosition` (`pose-coach.js` lines 439-452): nose roughly in
line with the shoulder. -/
noncomputable def checkHeadPosition (landmarks : List Point) : Bool :=
  let nose := getCoord landmarks 0
  let shoulder := getCoord landmarks 11
  decide (|nose.y - shoulder.y| < 0.15)

/-- `checkHandstandBalance` (`pose-coach.js` lines 459-476): wrist midpoint
horizontally within 0.1 of the shoulder midpoint. -/
noncomputable def checkHandstandBalance (landmarks : List Point) : Bool :=
  let leftWrist := getCoord landmarks 15
  let rightWrist := getCoord landmarks 16
  let leftShoulder := getCoord landmarks 11
  let rightShoulder := getCoord landmarks 12
  let wristCenterX := (leftWrist.x + rightWrist.x) / 2
  let shoulderCenterX := (leftShoulder.x + rightShoulder.x) / 2
  decide (|wristCenterX - shoulderCenterX| < 0.1)

/-- `checkShoulderPosition` (`pose-coach.js` lines 483-500): each shoulder
horizontally within 0.05 of its wrist. -/
noncomputable def checkShoulderPosition (landmarks : List Point) : Bool :=
  let leftShoulder := getCoord landmarks 11
  let rightShoulder := getCoord landmarks 12
  let leftWrist := getCoord landmarks 15
  let rightWrist := getCoord landmarks 16
  decide (|leftShoulder.x - leftWrist.x| < 0.05) &&
    decide (|rightShoulder.x - rightWrist.x| < 0.05)

/-- `checkHandstandInversion` (`pose-coach.js` lines 507-521): left wrist
above left shoulder above left hip (smaller `y` is higher on screen). -/
noncomputable def checkHandstandInversion (landmarks : List Point) : Bool :=
  let leftShoulder := getCoord landmarks 11
  let leftWrist := getCoord landmarks 15
  let leftHip := getCoord landmarks 23
  decide (leftWrist.y < leftShoulder.y) && decide (leftShoulder.y < leftHip.y)

/-- The message pools of `getMotivationalMessage` (`pose-coach.js`
lines 592-616). -/
def motivationalPool (level : String) : List String :=
  if level = "excellent" then
    ["🌟 Outstanding form! You're a natural!",
     "💫 Perfect execution! Keep it up!",
     "🏆 Flawless technique! You're crushing it!",
     "⭐ Incredible control! Well done!"]
  else if level = "good" then
    ["💪 Great job! You're getting stronger!",
     "🔥 Nice work! Keep pushing!",
     "✨ Solid form! You're improving!",
     "👏 Well done! Stay consistent!"]
  else
    ["📈 You're making progress! Keep going!",
     "💯 Every rep counts! Stay focused!",
     "🎯 You're on the right track!",
     "⚡ Keep practicing! You've got this!"]

/-- `getMotivationalMessage(level)` with `Math.random()` made explicit: the
caller supplies `rand`, and the pick is `rand % pool.length`, matching
`Math.floor(Math.random() * levelMessages.length)`. -/
def getMotivationalMessage (level : String) (rand : ℕ) : String :=
  let levelMessages := motivationalPool level
  levelMessages.getD (rand % levelMessages.length) ""

/-- The feedback-building part of `analyzePushup` (`pose-coach.js`
lines 267-318): the priority ladder, then the perfect-elbow-range tip, then
the head-position tip.  Returned alongside the updated exercise state. -/
noncomputable def analyzePushup (landmarks : List Point) (angles : AngleSet)
    (now rand : ℕ) (s : PushupState) : Feedback × PushupState :=
  let leftElbow := angles.elbow_angle_left
  let rightElbow := angles.elbow_angle_right
  let s' := pushupStep now leftElbow rightElbow s
  let base : Feedback :=
    if leftElbow < 70 ∨ rightElbow < 70 then
      { primaryFeedback := "⚠️ Arms too bent - push higher!"
        tips := ["Extend your arms more to complete the push-up"]
        priority := "critical", motivational := "" }
    else if leftElbow > 150 ∨ rightElbow > 150 then
      { primaryFeedback := "⚠️ Lower down more for full range"
        tips := ["Bend your elbows to 90-110 degrees for proper form"]
        priority := "critical", motivational := "" }
    else if ¬ checkPushupBodyAlignment landmarks then
      { primaryFeedback := "📐 Keep your body straight"
        tips := ["Engage your core to maintain a plank position"]
        priority := "major", motivational := "" }
    else if |leftElbow - rightElbow| > 15 then
      { primaryFeedback := "⚖️ Balance both arms equally"
        tips := ["Lower both arms at the same rate"]
        priority := "major", motivational := "" }
    else
      { primaryFeedback := "✅ Excellent form!"
        tips := ["Keep up this great technique"]
        priority := "success", motivational := getMotivationalMessage "good" rand }
  let withRangeTip :=
    if leftElbow > 0 ∧ rightElbow > 0 ∧
        (90 ≤ leftElbow ∧ leftElbow ≤ 120 ∧ 90 ≤ rightElbow ∧ rightElbow ≤ 120) then
      { base with tips := base.tips ++ ["Perfect elbow angle range!"] }
    else base
  let withHeadTip :=
    if ¬ checkHeadPosition landmarks then
      { withRangeTip with tips := withRangeTip.tips ++ ["Keep your head in neutral position"] }
    else withRangeTip
  (withHeadTip, s')

/-- The handstand entry/exit update of `analyzeHandstand` (`pose-coach.js`
lines 346-357). -/
noncomputable def handstandStep (now : ℕ) (landmarks : List Point) (s : HandstandState) :
    HandstandState :=
  let isInverted := checkHandstandInversion landmarks
  if isInverted ∧ ¬ s.isInHandstand then
    { isInHandstand := true, entryTime := now, repCount := s.repCount + 1 }
  else if ¬ isInverted ∧ s.isInHandstand then
    { s with isInHandstand := false }
  else s

/-- The feedback-building part of `analyzeHandstand` (`pose-coach.js`
lines 359-408). -/
noncomputable def analyzeHandstand (landmarks : List Point) (angles : AngleSet)
    (now rand : ℕ) (s : HandstandState) : Feedback × HandstandState :=
  let leftAlignment := angles.shoulder_hip_ankle_angle_left
  let rightAlignment := angles.shoulder_hip_ankle_angle_right
  let leftElbow := angles.elbow_angle_left
  let rightElbow := angles.elbow_angle_right
  let s' := handstandStep now landmarks s
  let base : Feedback :=
    if leftElbow < 160 ∨ rightElbow < 160 then
      { primaryFeedback := "💪 Extend your arms fully"
        tips := ["Lock your elbows for better stability"]
        priority := "critical", motivational := "" }
    else if leftAlignment < 160 ∨ rightAlignment < 160 then
      { primaryFeedback := "📏 Straighten your body line"
        tips := ["Engage your core and point your toes up"]
        priority := "critical", motivational := "" }
    else if ¬ checkHandstandBalance landmarks then
      { primaryFeedback := "⚖️ Center your weight over hands"
        tips := ["Shift your body to find the balance point"]
        priority := "major", motivational := "" }
    else if |leftAlignment - rightAlignment| > 10 then
      { primaryFeedback := "📐 Keep both sides aligned"
        tips := ["Engage your core evenly on both sides"]
        priority := "major", motivational := "" }
    else
      { primaryFeedback := "🌟 Amazing handstand form!"
        tips := ["Hold this position as long as you can"]
        priority := "success", motivational := getMotivationalMessage "excellent" rand }
  let withAlignTip :=
    if leftAlignment > 170 ∧ rightAlignment > 170 then
      { base with tips := base.tips ++ ["Perfect body alignment!"] }
    else base
  let withShoulderTip :=
    if ¬ checkShoulderPosition landmarks then
      { withAlignTip with
          tips := withAlignTip.tips ++ ["Keep your shoulders directly over your wrists"] }
    else withAlignTip
  (withShoulderTip, s')

/-- `array.slice(-n)`: the last `n` elements (the whole list when shorter). -/
def lastN (n : ℕ) (l : List α) : List α :=
  l.drop (l.length - n)

/-- The number of history entries in `recent` whose primary message is `m` —
the final value `feedbackCount[m]` of the tallying loop of
`getConsistentFeedback` (`pose-coach.js` lines 538-544). -/
def countMsg (recent : List Entry) (m : String) : ℕ :=
  (recent.filter fun e => e.feedback.primaryFeedback = m).length

/-- First-occurrence deduplication: the key order of the `feedbackCount`
object (JavaScript objects iterate string keys in insertion order). -/
def keysIn : List String → List String
  | [] => []
  | m :: rest => m :: (keysIn rest).filter (fun k => k ≠ m)

/-- The `Object.entries(feedbackCount)` list: each distinct primary message
in first-occurrence order, paired with its count. -/
def tally (recent : List Entry) : List (String × ℕ) :=
  (keysIn (recent.map fun e => e.feedback.primaryFeedback)).map
    fun m => (m, countMsg recent m)

/-- The reduction loop of `getConsistentFeedback` (`pose-coach.js`
lines 553-566): starting from `maxCount = 0`, `mostFrequent = ""`, take a
candidate when `count > maxCount && count >= 0.7 * recentFrames.length`.
For integer counts and window sizes `n ≤ 5`, the double-precision test
`count >= 0.7 * n` holds exactly when `10 * count ≥ 7 * n`. -/
def pickLoop (n : ℕ) : List (String × ℕ) → ℕ → String → String
  | [], _, mostFrequent => mostFrequent
  | (m, count) :: rest, maxCount, mostFrequent =>
      if count > maxCount ∧ 10 * count ≥ 7 * n then
        pickLoop n rest count m
      else
        pickLoop n rest maxCount mostFrequent

/-- `getConsistentFeedback()` of `pose-coach.js` (lines 527-585): tally the
last five entries, pick the most frequent message reaching the consistency
threshold, and fall back to the most recent frame when `mostFrequent` is
still the empty string. -/
def getConsistentFeedback (frameHistory : List Entry) : Feedback :=
  match frameHistory.getLast? with
  | none =>
      { primaryFeedback := "Get ready to start!", tips := [],
        priority := "minor", motivational := "" }
  | some latest =>
      let recentFrames := lastN 5 frameHistory
      let mostFrequent := pickLoop recentFrames.length (tally recentFrames) 0 ""
      if mostFrequent = "" then latest.feedback
      else
        match recentFrames.find? (fun f => f.feedback.primaryFeedback = mostFrequent) with
        | some frame =>
            { primaryFeedback := mostFrequent, tips := frame.feedback.tips,
              priority := frame.feedback.priority,
              motivational := frame.feedback.motivational }
        | none =>
            { primaryFeedback := mostFrequent, tips := [],
              priority := "minor", motivational := "" }

/-- The `{ totalFrames, goodFormFrames, goodFormPercentage }` record of
`getSessionStats` (`pose-coach.js` lines 622-641). -/
structure SessionStats where
  totalFrames : ℕ
  goodFormFrames : ℕ
  goodFormPercentage : ℤ
deriving DecidableEq

/-- `getSessionStats()` of `pose-coach.js` (lines 622-641);
`Math.round((goodFormFrames / totalFrames) * 100)` is computed in `ℚ`. -/
def getSessionStats (frameHistory : List Entry) : SessionStats :=
  if frameHistory.length = 0 then
    { totalFrames := 0, goodFormFrames := 0, goodFormPercentage := 0 }
  else
    let totalFrames := frameHistory.length
    let goodFormFrames := (frameHistory.filter fun frame =>
      frame.feedback.priority = "success" ∨ frame.feedback.priority = "minor").length
    { totalFrames := totalFrames
      goodFormFrames := goodFormFrames
      goodFormPercentage := round ((goodFormFrames : ℚ) / (totalFrames : ℚ) * 100) }

/-- The mutable state of a `PoseCoach` instance relevant to the returned
feedback: frame history plus the two exercise states. -/
structure CoachState where
  frameHistory : List Entry
  pushup : PushupState
  handstand : HandstandState

/-- The state of a freshly constructed `PoseCoach`. -/
def initialCoachState : CoachState :=
  { frameHistory := [], pushup := pushupStateInit, handstand := handstandStateInit }

/-- The object returned by `analyzeAndCoach`: the stable feedback fields,
plus `currentAngles` and `sessionStats`, which the early no-landmarks return
leaves absent (`none`). -/
structure CoachResult where
  primaryFeedback : String
  tips : List String
  priority : String
  motivational : String
  currentAngles : Option AngleSet
  sessionStats : Option SessionStats

/-- `generateFeedback(landmarks, angles, exerciseType)` of `pose-coach.js`
(lines 205-218), returning the updated exercise states as well. -/
noncomputable def generateFeedback (st : CoachState) (landmarks : List Point)
    (angles : AngleSet) (exerciseType : String) (now rand : ℕ) :
    Feedback × CoachState :=
  if exerciseType = "pushup" then
    let (fb, p') := analyzePushup landmarks angles now rand st.pushup
    (fb, { st with pushup := p' })
  else if exerciseType = "handstand" then
    let (fb, h') := analyzeHandstand landmarks angles now rand st.handstand
    (fb, { st with handstand := h' })
  else
    ({ primaryFeedback := "Select an exercise type", tips := [],
       priority := "minor", motivational := "" }, st)

/-- The maximum history length `this.maxHistoryFrames`. -/
def maxHistoryFrames : ℕ := 10

/-- `analyzeAndCoach(landmarks, exerciseType)` of `pose-coach.js`
(lines 163-196): early return on null/empty landmarks, otherwise verify
posture, generate feedback, push it on the history ring (evicting from the
front past 10 entries), and return the consistency-filtered feedback with
`currentAngles` and `sessionStats` attached. -/
noncomputable def analyzeAndCoach (st : CoachState) (landmarks : Option (List Point))
    (exerciseType : String) (now rand : ℕ) : CoachResult × CoachState :=
  match landmarks with
  | none =>
      ({ primaryFeedback := "Position yourself in camera view"
         tips := ["Make sure your full body is visible"]
         priority := "critical", motivational := ""
         currentAngles := none, sessionStats := none }, st)
  | some lms =>
      if lms.length = 0 then
        ({ primaryFeedback := "Position yourself in camera view"
           tips := ["Make sure your full body is visible"]
           priority := "critical", motivational := ""
           currentAngles := none, sessionStats := none }, st)
      else
        let angles := verifyPosture (some lms) exerciseType
        let (feedback, st1) := generateFeedback st lms angles exerciseType now rand
        let pushed := st1.frameHistory ++ [⟨now, feedback, angles⟩]
        let hist := if pushed.length > maxHistoryFrames then pushed.tail else pushed
        let st2 := { st1 with frameHistory := hist }
        let consistent := getConsistentFeedback hist
        ({ primaryFeedback := consistent.primaryFeedback
           tips := consistent.tips
           priority := consistent.priority
           motivational := consistent.motivational
           currentAngles := some angles
           sessionStats := some (getSessionStats hist) }, st2)

/-- One frame's inputs to `analyzeAndCoach`. -/
structure CallInput where
  landmarks : Option (List Point)
  exerciseType : String
  now : ℕ
  rand : ℕ

/-- A session: fold `analyzeAndCoach` over a list of per-frame inputs. -/
noncomputable def runCoach (st : CoachState) (calls : List CallInput) : CoachState :=
  calls.foldl (fun s c => (analyzeAndCoach s c.landmarks c.exerciseType c.now c.rand).2) st

/-! ### Supporting lemmas -/

lemma segMagnitude_eq_zero_iff (p q : Point) : segMagnitude p q = 0 ↔ p = q := by
  unfold segMagnitude
  constructor
  · intro h
    rw [Real.sqrt_eq_zero'] at h
    have h1 : (p.x - q.x) ^ 2 = 0 := by
      nlinarith [sq_nonneg (p.x - q.x), sq_nonneg (p.y - q.y)]
    have h2 : (p.y - q.y) ^ 2 = 0 := by
      nlinarith [sq_nonneg (p.x - q.x), sq_nonneg (p.y - q.y)]
    have hx : p.x = q.x := by nlinarith
    have hy : p.y = q.y := by nlinarith
    ext <;> assumption
  · rintro rfl
    simp

lemma arccos_deg_nonneg (c : ℝ) : 0 ≤ Real.arccos c * (180 / Real.pi) :=
  mul_nonneg (Real.arccos_nonneg c) (by positivity)

lemma arccos_deg_le (c : ℝ) : Real.arccos c * (180 / Real.pi) ≤ 180 := by
  calc Real.arccos c * (180 / Real.pi)
      ≤ Real.pi * (180 / Real.pi) :=
        mul_le_mul_of_nonneg_right (Real.arccos_le_pi c) (by positivity)
    _ = 180 := by field_simp

/-! ### Claim theorems: geometry and accessor -/

/-- C5: if either vector BA or BC has zero magnitude (equivalently, A
coincides with B or C coincides with B), `calculateAngle` returns exactly 0;
otherwise the clamped cosine is fed to `arccos`, so the result always lies
in `[0, 180]` degrees, and the function is total (no exception). -/
theorem calculateAngle_range_and_degenerate (A B C : Point) :
    ((segMagnitude A B = 0 ∨ segMagnitude C B = 0) ↔ (A = B ∨ C = B)) ∧
    ((A = B ∨ C = B) → calculateAngle A B C = 0) ∧
    0 ≤ calculateAngle A B C ∧ calculateAngle A B C ≤ 180 := by
  have hiff : (segMagnitude A B = 0 ∨ segMagnitude C B = 0) ↔ (A = B ∨ C = B) :=
    or_congr (segMagnitude_eq_zero_iff A B) (segMagnitude_eq_zero_iff C B)
  refine ⟨hiff, ?_, ?_, ?_⟩
  · intro h
    unfold calculateAngle
    rw [if_pos (hiff.mpr h)]
  · unfold calculateAngle
    split
    · exact le_refl 0
    · exact arccos_deg_nonneg _
  · unfold calculateAngle
    split
    · norm_num
    · exact arccos_deg_le _

/-- C5 witness: at coincident A and B the angle is the 0 sentinel, and it
lies within `[0, 180]`. -/
theorem calculateAngle_range_and_degenerate_witness :
    calculateAngle ⟨0, 0⟩ ⟨0, 0⟩ ⟨1, 0⟩ = 0 ∧
    0 ≤ calculateAngle ⟨0, 0⟩ ⟨0, 0⟩ ⟨1, 0⟩ ∧
    calculateAngle ⟨0, 0⟩ ⟨0, 0⟩ ⟨1, 0⟩ ≤ 180 :=
  ⟨(calculateAngle_range_and_degenerate ⟨0, 0⟩ ⟨0, 0⟩ ⟨1, 0⟩).2.1 (Or.inl rfl),
   (calculateAngle_range_and_degenerate ⟨0, 0⟩ ⟨0, 0⟩ ⟨1, 0⟩).2.2.1,
   (calculateAngle_range_and_degenerate ⟨0, 0⟩ ⟨0, 0⟩ ⟨1, 0⟩).2.2.2⟩

/-- C6: `calculateAngle` is symmetric under swapping the two endpoint
arguments: `calculateAngle(A,B,C) = calculateAngle(C,B,A)`. -/
theorem calculateAngle_symm (A B C : Point) :
    calculateAngle A B C = calculateAngle C B A := by
  unfold calculateAngle
  by_cases h : segMagnitude A B = 0 ∨ segMagnitude C B = 0
  · rw [if_pos h, if_pos h.symm]
  · rw [if_neg h, if_neg fun hc => h hc.symm]
    have hdot : (C.x - B.x) * (A.x - B.x) + (C.y - B.y) * (A.y - B.y)
        = (A.x - B.x) * (C.x - B.x) + (A.y - B.y) * (C.y - B.y) := by ring
    simp only [hdot, mul_comm (segMagnitude C B) (segMagnitude A B)]

/-- C4 counterexample: with a present (here: empty) landmark array and the
out-of-range index `-1`, the JavaScript accessor reads `landmarks[-1]`
(`undefined`) and throws a `TypeError` on `.x` instead of returning the
zero point. -/
theorem getLandmarkCoordinates_neg_throws :
    getLandmarkCoordinates (some []) (-1) = .error () := rfl

/-- C4 (amended): the accessor returns `{x: 0, y: 0}` when the landmark
array is absent, or when the index is `≥` the array length (so in
particular on every natural index that is out of bounds, and on every
natural index into an empty array); it never throws for a nonnegative
index.  A negative index with a present array, however, throws. -/
theorem getLandmarkCoordinates_spec :
    (∀ i : ℤ, getLandmarkCoordinates none i = .ok ⟨0, 0⟩) ∧
    (∀ (lms : List Point) (i : ℤ), (lms.length : ℤ) ≤ i →
      getLandmarkCoordinates (some lms) i = .ok ⟨0, 0⟩) ∧
    (∀ (lms : List Point) (i : ℤ), 0 ≤ i →
      ∃ p, getLandmarkCoordinates (some lms) i = .ok p) ∧
    (∀ (lms : List Point) (i : ℤ), i < 0 →
      getLandmarkCoordinates (some lms) i = .error ()) := by
  refine ⟨fun i => rfl, ?_, ?_, ?_⟩
  · intro lms i h
    simp only [getLandmarkCoordinates]
    rw [if_pos h]
  · intro lms i h
    by_cases hle : (lms.length : ℤ) ≤ i
    · exact ⟨⟨0, 0⟩, by simp only [getLandmarkCoordinates]; rw [if_pos hle]⟩
    · refine ⟨lms.getD i.toNat ⟨0, 0⟩, ?_⟩
      simp only [getLandmarkCoordinates]
      rw [if_neg hle, if_pos h]
  · intro lms i h
    simp only [getLandmarkCoordinates]
    rw [if_neg (by omega), if_neg (by omega)]

/-- C4 witness: an in-bounds-guarded call on an empty array with a natural
index returns the zero point. -/
theorem getLandmarkCoordinates_spec_witness :
    getLandmarkCoordinates (some []) 5 = .ok ⟨0, 0⟩ :=
  getLandmarkCoordinates_spec.2.1 [] 5 (by decide)

/-- C8: `verifyPosture` returns the all-zero angle set for absent or empty
landmarks and for unknown exercise types; for `pushup` it computes only the
two elbow angles (both shoulder-hip-ankle angles stay 0); for `handstand`
it computes all four angles. -/
theorem verifyPosture_spec :
    (∀ t, verifyPosture none t = ⟨0, 0, 0, 0⟩) ∧
    (∀ t, verifyPosture (some []) t = ⟨0, 0, 0, 0⟩) ∧
    (∀ (lms : List Point) t, t ≠ "pushup" → t ≠ "handstand" →
      verifyPosture (some lms) t = ⟨0, 0, 0, 0⟩) ∧
    (∀ lms : List Point, lms ≠ [] →
      verifyPosture (some lms) "pushup" =
        ⟨calculateAngle (getCoord lms 11) (getCoord lms 13) (getCoord lms 15),
         calculateAngle (getCoord lms 12) (getCoord lms 14) (getCoord lms 16),
         0, 0⟩) ∧
    (∀ lms : List Point, lms ≠ [] →
      verifyPosture (some lms) "handstand" =
        ⟨calculateAngle (getCoord lms 11) (getCoord lms 13) (getCoord lms 15),
         calculateAngle (getCoord lms 12) (getCoord lms 14) (getCoord lms 16),
         calculateAngle (getCoord lms 11) (getCoord lms 23) (getCoord lms 27),
         calculateAngle (getCoord lms 12) (getCoord lms 24) (getCoord lms 28)⟩) := by
  refine ⟨fun t => rfl, fun t => ?_, ?_, ?_, ?_⟩
  · simp [verifyPosture]
  · intro lms t h1 h2
    simp only [verifyPosture]
    by_cases h0 : lms.length = 0
    · rw [if_pos h0]
    · rw [if_neg h0, if_neg h1, if_neg h2]
  · intro lms h
    simp only [verifyPosture]
    rw [if_neg fun hc => h (List.length_eq_zero.mp hc)]
    simp
  · intro lms h
    simp only [verifyPosture]
    rw [if_neg fun hc => h (List.length_eq_zero.mp hc)]
    simp

/-- C8 witness: a one-landmark frame in push-up mode gets exactly the two
elbow angles computed. -/
theorem verifyPosture_spec_witness :
    verifyPosture (some [(⟨0, 0⟩ : Point)]) "pushup" =
      ⟨calculateAngle (getCoord [⟨0, 0⟩] 11) (getCoord [⟨0, 0⟩] 13) (getCoord [⟨0, 0⟩] 15),
       calculateAngle (getCoord [⟨0, 0⟩] 12) (getCoord [⟨0, 0⟩] 14) (getCoord [⟨0, 0⟩] 16),
       0, 0⟩ :=
  verifyPosture_spec.2.2.2.1 [⟨0, 0⟩] (List.cons_ne_nil _ _)

/-! ### Claim theorems: reference ranges, empty frames, the push-up ladder -/

/-- C7: `checkPostureCorrectness` produces a boolean only for angle ids with
a matching reference bucket (the `elbow_angle` bucket covers both elbow ids,
the `shoulder_hip_ankle_angle` bucket both alignment ids), with inclusive
bounds; unmatched ids and unknown exercise types yield no entries, and for
`pushup` the result never contains shoulder-hip-ankle entries. -/
theorem checkPostureCorrectness_spec :
    (∀ (a : AngleSet) (t : String), t ≠ "pushup" → t ≠ "handstand" →
      checkPostureCorrectness a t = []) ∧
    (∀ a : AngleSet, checkPostureCorrectness a "pushup" =
      [("elbow_angle_left", inRangeIncl a.elbow_angle_left 90 120),
       ("elbow_angle_right", inRangeIncl a.elbow_angle_right 90 120)]) ∧
    (∀ a : AngleSet, checkPostureCorrectness a "handstand" =
      [("elbow_angle_left", inRangeIncl a.elbow_angle_left 160 180),
       ("elbow_angle_right", inRangeIncl a.elbow_angle_right 160 180),
       ("shoulder_hip_ankle_angle_left", inRangeIncl a.shoulder_hip_ankle_angle_left 170 180),
       ("shoulder_hip_ankle_angle_right", inRangeIncl a.shoulder_hip_ankle_angle_right 170 180)]) ∧
    (∀ v lo hi : ℝ, inRangeIncl v lo hi = true ↔ lo ≤ v ∧ v ≤ hi) := by
  have he1 : strIncludes "elbow_angle_left" "elbow_angle" = true := by decide
  have he2 : strIncludes "elbow_angle_right" "elbow_angle" = true := by decide
  have hs1 : strIncludes "shoulder_hip_ankle_angle_left" "elbow_angle" = false := by decide
  have hs2 : strIncludes "shoulder_hip_ankle_angle_right" "elbow_angle" = false := by decide
  have hs3 : strIncludes "shoulder_hip_ankle_angle_left" "shoulder_hip_ankle" = true := by
    decide
  have hs4 : strIncludes "shoulder_hip_ankle_angle_right" "shoulder_hip_ankle" = true := by
    decide
  refine ⟨?_, ?_, ?_, ?_⟩
  · intro a t h1 h2
    have hnone : loadReferenceData t = none := by simp [loadReferenceData, h1, h2]
    simp [checkPostureCorrectness, hnone]
  · intro a
    simp [checkPostureCorrectness, loadReferenceData, angleEntries,
      he1, he2, hs1, hs2, hs3, hs4]
  · intro a
    simp [checkPostureCorrectness, loadReferenceData, angleEntries,
      he1, he2, hs1, hs2, hs3, hs4]
  · intro v lo hi
    simp [inRangeIncl]

/-- C7 witness: an unrecognised exercise type yields an empty correctness
mapping. -/
theorem checkPostureCorrectness_spec_witness :
    checkPostureCorrectness ⟨0, 0, 0, 0⟩ "plank" = [] :=
  checkPostureCorrectness_spec.1 ⟨0, 0, 0, 0⟩ "plank" (by decide) (by decide)

/-- C1 counterexample: on a null landmark argument `analyzeAndCoach` returns
early, and the returned object carries neither `currentAngles` nor
`sessionStats`, contrary to the claim that every evaluate result carries
them. -/
theorem analyzeAndCoach_empty_missing_fields :
    (analyzeAndCoach initialCoachState none "pushup" 0 0).1.currentAngles = none ∧
    (analyzeAndCoach initialCoachState none "pushup" 0 0).1.sessionStats = none :=
  ⟨rfl, rfl⟩

/-- C1 (amended): for null or empty landmarks, independent of exercise type,
`analyzeAndCoach` returns priority `critical`, primary message "Position
yourself in camera view", exactly one tip, no motivational text, and leaves
the coach state untouched — but the early return does not attach the
`currentAngles` and `sessionStats` fields that the non-empty path attaches
(they are absent, modelled `none`). -/
theorem analyzeAndCoach_empty_spec :
    (∀ (st : CoachState) (t : String) (now rand : ℕ),
      analyzeAndCoach st none t now rand =
        ({ primaryFeedback := "Position yourself in camera view"
           tips := ["Make sure your full body is visible"]
           priority := "critical", motivational := ""
           currentAngles := none, sessionStats := none }, st)) ∧
    (∀ (st : CoachState) (t : String) (now rand : ℕ),
      analyzeAndCoach st (some []) t now rand =
        ({ primaryFeedback := "Position yourself in camera view"
           tips := ["Make sure your full body is visible"]
           priority := "critical", motivational := ""
           currentAngles := none, sessionStats := none }, st)) :=
  ⟨fun _ _ _ _ => rfl, fun _ _ _ _ => rfl⟩

/-- C9: in the push-up ladder the first matching rule wins: whenever either
elbow angle is below 70°, the per-frame feedback is `critical` with the
"arms too bent" message, regardless of the landmarks, the other angles and
the geometric checks; in particular this holds for the angles `verifyPosture`
computes on any non-empty frame. -/
theorem analyzePushup_low_elbow_critical :
    (∀ (lms : List Point) (angles : AngleSet) (now rand : ℕ) (s : PushupState),
      (angles.elbow_angle_left < 70 ∨ angles.elbow_angle_right < 70) →
      (analyzePushup lms angles now rand s).1.priority = "critical" ∧
      (analyzePushup lms angles now rand s).1.primaryFeedback =
        "⚠️ Arms too bent - push higher!") ∧
    (∀ (lms : List Point) (now rand : ℕ) (s : PushupState), lms ≠ [] →
      ((verifyPosture (some lms) "pushup").elbow_angle_left < 70 ∨
        (verifyPosture (some lms) "pushup").elbow_angle_right < 70) →
      (analyzePushup lms (verifyPosture (some lms) "pushup") now rand s).1.priority =
        "critical") := by
  have main : ∀ (lms : List Point) (angles : AngleSet) (now rand : ℕ) (s : PushupState),
      (angles.elbow_angle_left < 70 ∨ angles.elbow_angle_right < 70) →
      (analyzePushup lms angles now rand s).1.priority = "critical" ∧
      (analyzePushup lms angles now rand s).1.primaryFeedback =
        "⚠️ Arms too bent - push higher!" := by
    intro lms angles now rand s h
    unfold analyzePushup
    dsimp only
    rw [if_pos h]
    constructor
    · split <;> split <;> rfl
    · split <;> split <;> rfl
  exact ⟨main, fun lms now rand s _ h => (main lms _ now rand s h).1⟩

/-- C9 witness: a left elbow angle of 60° forces priority `critical`. -/
theorem analyzePushup_low_elbow_critical_witness :
    (analyzePushup [] ⟨60, 100, 0, 0⟩ 0 0 pushupStateInit).1.priority = "critical" :=
  (analyzePushup_low_elbow_critical.1 [] ⟨60, 100, 0, 0⟩ 0 0 pushupStateInit
    (Or.inl (by norm_num))).1

/-! ### Claim theorems: the push-up rep state machine -/

/-- A session of the rep counter alone: fold the state update over a
sequence of frames whose left and right elbow angles are both the given
value (so the mean is that value), starting from the initial state. -/
noncomputable def foldPushup (meanAngles : List ℝ) : PushupState :=
  meanAngles.foldl (fun s a => pushupStep 0 a a s) pushupStateInit

/-- The synthetic mean-elbow-angle sequence of the claim. -/
noncomputable def demoSeq : List ℝ := [200, 200, 200, 50, 50, 200]

lemma pushupStep_stay_up_200 (c t : ℕ) :
    pushupStep 0 200 200 ⟨"up", c, t⟩ = ⟨"up", c, t⟩ := by
  unfold pushupStep
  dsimp only
  have h1 : ¬(((200:ℝ) + 200) / 2 > 160 ∧ ("up":String) = "down") := by
    rintro ⟨-, hp⟩
    exact absurd hp (by decide)
  have h2 : ¬(((200:ℝ) + 200) / 2 < 90 ∧ ("up":String) = "up") := by
    rintro ⟨hlt, -⟩
    norm_num at hlt
  rw [if_neg h1, if_neg h2]

lemma pushupStep_up_to_down_50 (c t : ℕ) :
    pushupStep 0 50 50 ⟨"up", c, t⟩ = ⟨"down", c, t⟩ := by
  unfold pushupStep
  dsimp only
  have h1 : ¬(((50:ℝ) + 50) / 2 > 160 ∧ ("up":String) = "down") := by
    rintro ⟨hgt, -⟩
    norm_num at hgt
  rw [if_neg h1, if_pos ⟨by norm_num, rfl⟩]

lemma pushupStep_stay_down_50 (c t : ℕ) :
    pushupStep 0 50 50 ⟨"down", c, t⟩ = ⟨"down", c, t⟩ := by
  unfold pushupStep
  dsimp only
  have h1 : ¬(((50:ℝ) + 50) / 2 > 160 ∧ ("down":String) = "down") := by
    rintro ⟨hgt, -⟩
    norm_num at hgt
  have h2 : ¬(((50:ℝ) + 50) / 2 < 90 ∧ ("down":String) = "up") := by
    rintro ⟨-, hp⟩
    exact absurd hp (by decide)
  rw [if_neg h1, if_neg h2]

lemma pushupStep_down_to_up_200 (c t : ℕ) :
    pushupStep 0 200 200 ⟨"down", c, t⟩ = ⟨"up", c + 1, 0⟩ := by
  unfold pushupStep
  dsimp only
  rw [if_pos ⟨by norm_num, rfl⟩]

/-- C3: the push-up state machine starts in `up` with 0 reps; `down → up`
happens exactly when the mean elbow angle exceeds 160° in state `down`, and
only that transition increments the rep counter; `up → down` happens exactly
when the mean drops below 90° in state `up`; and the synthetic sequence
200°,200°,200°,50°,50°,200° produces exactly one rep, on the final frame. -/
theorem pushupStateMachine_spec :
    (pushupStateInit.position = "up" ∧ pushupStateInit.repCount = 0) ∧
    (∀ (now : ℕ) (l r : ℝ) (s : PushupState), s.position = "down" →
      ((pushupStep now l r s).position = "up" ↔ (l + r) / 2 > 160)) ∧
    (∀ (now : ℕ) (l r : ℝ) (s : PushupState),
      (pushupStep now l r s).repCount =
        if (l + r) / 2 > 160 ∧ s.position = "down" then s.repCount + 1
        else s.repCount) ∧
    (∀ (now : ℕ) (l r : ℝ) (s : PushupState), s.position = "up" →
      ((pushupStep now l r s).position = "down" ↔ (l + r) / 2 < 90)) ∧
    ((foldPushup (demoSeq.take 0)).repCount = 0 ∧
     (foldPushup (demoSeq.take 1)).repCount = 0 ∧
     (foldPushup (demoSeq.take 2)).repCount = 0 ∧
     (foldPushup (demoSeq.take 3)).repCount = 0 ∧
     (foldPushup (demoSeq.take 4)).repCount = 0 ∧
     (foldPushup (demoSeq.take 5)).repCount = 0 ∧
     (foldPushup demoSeq).repCount = 1) := by
  refine ⟨⟨rfl, rfl⟩, ?_, ?_, ?_, ?_⟩
  · intro now l r s hs
    unfold pushupStep
    dsimp only
    by_cases h160 : (l + r) / 2 > 160
    · rw [if_pos ⟨h160, hs⟩]
      exact ⟨fun _ => h160, fun _ => rfl⟩
    · rw [if_neg fun hc => h160 hc.1,
        if_neg fun hc => absurd (hs.symm.trans hc.2) (by decide)]
      exact ⟨fun h => absurd (hs.symm.trans h) (by decide), fun h => absurd h h160⟩
  · intro now l r s
    unfold pushupStep
    dsimp only
    by_cases hc : (l + r) / 2 > 160 ∧ s.position = "down"
    · rw [if_pos hc, if_pos hc]
    · rw [if_neg hc, if_neg hc]
      split <;> rfl
  · intro now l r s hs
    unfold pushupStep
    dsimp only
    rw [if_neg fun hc => absurd (hs.symm.trans hc.2) (by decide)]
    by_cases h90 : (l + r) / 2 < 90
    · rw [if_pos ⟨h90, hs⟩]
      exact ⟨fun _ => h90, fun _ => rfl⟩
    · rw [if_neg fun hc => h90 hc.1]
      exact ⟨fun h => absurd (hs.symm.trans h) (by decide), fun h => absurd h h90⟩
  · have hinit : pushupStateInit = (⟨"up", 0, 0⟩ : PushupState) := rfl
    have t0 : foldPushup (demoSeq.take 0) = ⟨"up", 0, 0⟩ := rfl
    have t1 : foldPushup (demoSeq.take 1) = ⟨"up", 0, 0⟩ := by
      simp only [foldPushup, demoSeq, List.take, List.foldl_cons, List.foldl_nil]
      rw [hinit, pushupStep_stay_up_200]
    have t2 : foldPushup (demoSeq.take 2) = ⟨"up", 0, 0⟩ := by
      simp only [foldPushup, demoSeq, List.take, List.foldl_cons, List.foldl_nil]
      rw [hinit, pushupStep_stay_up_200, pushupStep_stay_up_200]
    have t3 : foldPushup (demoSeq.take 3) = ⟨"up", 0, 0⟩ := by
      simp only [foldPushup, demoSeq, List.take, List.foldl_cons, List.foldl_nil]
      rw [hinit, pushupStep_stay_up_200, pushupStep_stay_up_200, pushupStep_stay_up_200]
    have t4 : foldPushup (demoSeq.take 4) = ⟨"down", 0, 0⟩ := by
      simp only [foldPushup, demoSeq, List.take, List.foldl_cons, List.foldl_nil]
      rw [hinit, pushupStep_stay_up_200, pushupStep_stay_up_200, pushupStep_stay_up_200,
        pushupStep_up_to_down_50]
    have t5 : foldPushup (demoSeq.take 5) = ⟨"down", 0, 0⟩ := by
      simp only [foldPushup, demoSeq, List.take, List.foldl_cons, List.foldl_nil]
      rw [hinit, pushupStep_stay_up_200, pushupStep_stay_up_200, pushupStep_stay_up_200,
        pushupStep_up_to_down_50, pushupStep_stay_down_50]
    have t6 : foldPushup demoSeq = ⟨"up", 1, 0⟩ := by
      simp only [foldPushup, demoSeq, List.foldl_cons, List.foldl_nil]
      rw [hinit, pushupStep_stay_up_200, pushupStep_stay_up_200, pushupStep_stay_up_200,
        pushupStep_up_to_down_50, pushupStep_stay_down_50, pushupStep_down_to_up_200]
    rw [t0, t1, t2, t3, t4, t5, t6]
    exact ⟨rfl, rfl, rfl, rfl, rfl, rfl, rfl⟩

/-- C3 witness: from state `down` with rep count 3, a mean elbow angle of
200° transitions to `up`. -/
theorem pushupStateMachine_spec_witness :
    (pushupStep 7 200 200 ⟨"down", 3, 0⟩).position = "up" :=
  (pushupStateMachine_spec.2.1 7 200 200 ⟨"down", 3, 0⟩ rfl).mpr (by norm_num)

/-! ### Claim theorems: session statistics and the history ring -/

lemma generateFeedback_frameHistory (st : CoachState) (lms : List Point)
    (angles : AngleSet) (t : String) (now rand : ℕ) :
    ((generateFeedback st lms angles t now rand).2).frameHistory = st.frameHistory := by
  unfold generateFeedback
  split
  · rfl
  · split
    · rfl
    · rfl

lemma analyzeAndCoach_history_le (st : CoachState) (lm : Option (List Point))
    (t : String) (now rand : ℕ) (h : st.frameHistory.length ≤ maxHistoryFrames) :
    ((analyzeAndCoach st lm t now rand).2).frameHistory.length ≤ maxHistoryFrames := by
  match lm with
  | none => exact h
  | some lms =>
      simp only [analyzeAndCoach]
      by_cases h0 : lms.length = 0
      · rw [if_pos h0]
        exact h
      · rw [if_neg h0]
        dsimp only
        rw [generateFeedback_frameHistory]
        split
        · simp only [List.length_tail, List.length_append, List.length_singleton]
          omega
        · rename_i hle
          simp only [List.length_append, List.length_singleton]
          simp only [not_lt] at hle
          simp only [List.length_append, List.length_singleton] at hle
          omega

lemma runCoach_history_le (calls : List CallInput) :
    ∀ st : CoachState, st.frameHistory.length ≤ maxHistoryFrames →
      (runCoach st calls).frameHistory.length ≤ maxHistoryFrames := by
  induction calls with
  | nil => intro st h; exact h
  | cons c cs ih =>
      intro st h
      simp only [runCoach, List.foldl_cons]
      exact ih _ (analyzeAndCoach_history_le st c.landmarks c.exerciseType c.now c.rand h)

/-- C10: over any sequence of `analyzeAndCoach` calls from a fresh coach the
frame history holds at most 10 entries, so `totalFrames ≤ 10`; an entry
counts as good form exactly when its priority is `success` or `minor`; the
percentage is `round(100 * good / total)`; and the empty history reports all
zeroes. -/
theorem sessionStats_spec :
    (∀ calls : List CallInput,
      (runCoach initialCoachState calls).frameHistory.length ≤ maxHistoryFrames) ∧
    (∀ calls : List CallInput,
      (getSessionStats (runCoach initialCoachState calls).frameHistory).totalFrames ≤ 10) ∧
    (∀ hist : List Entry, (getSessionStats hist).totalFrames = hist.length) ∧
    (∀ hist : List Entry, (getSessionStats hist).goodFormFrames =
      (hist.filter fun e =>
        e.feedback.priority = "success" ∨ e.feedback.priority = "minor").length) ∧
    (∀ hist : List Entry, hist ≠ [] →
      (getSessionStats hist).goodFormPercentage =
        round (100 * ((getSessionStats hist).goodFormFrames : ℚ) /
          ((getSessionStats hist).totalFrames : ℚ))) ∧
    getSessionStats [] = ⟨0, 0, 0⟩ := by
  have htot : ∀ hist : List Entry, (getSessionStats hist).totalFrames = hist.length := by
    intro hist
    unfold getSessionStats
    by_cases h0 : hist.length = 0
    · rw [if_pos h0]
      exact h0.symm
    · rw [if_neg h0]
  have hlen : ∀ calls : List CallInput,
      (runCoach initialCoachState calls).frameHistory.length ≤ maxHistoryFrames :=
    fun calls => runCoach_history_le calls initialCoachState (by simp [initialCoachState])
  refine ⟨hlen, ?_, htot, ?_, ?_, rfl⟩
  · intro calls
    rw [htot]
    exact hlen calls
  · intro hist
    unfold getSessionStats
    by_cases h0 : hist.length = 0
    · rw [if_pos h0]
      rw [List.length_eq_zero.mp h0]
      rfl
    · rw [if_neg h0]
  · intro hist hne
    unfold getSessionStats
    rw [if_neg fun hc => hne (List.length_eq_zero.mp hc)]
    dsimp only
    congr 1
    ring

/-- C10 witness: a one-entry history with a `success` frame reports its
percentage by the rounding formula. -/
theorem sessionStats_spec_witness :
    (getSessionStats [⟨0, ⟨"✅ Excellent form!", [], "success", ""⟩, ⟨0, 0, 0, 0⟩⟩]).goodFormPercentage =
      round (100 * ((getSessionStats
          [⟨0, ⟨"✅ Excellent form!", [], "success", ""⟩, ⟨0, 0, 0, 0⟩⟩]).goodFormFrames : ℚ) /
        ((getSessionStats
          [⟨0, ⟨"✅ Excellent form!", [], "success", ""⟩, ⟨0, 0, 0, 0⟩⟩]).totalFrames : ℚ)) :=
  sessionStats_spec.2.2.2.2.1 [⟨0, ⟨"✅ Excellent form!", [], "success", ""⟩, ⟨0, 0, 0, 0⟩⟩]
    (List.cons_ne_nil _ _)

/-! ### Claim theorems: the temporal consistency filter -/

lemma countMsg_cons (e : Entry) (r : List Entry) (m : String) :
    countMsg (e :: r) m =
      (if e.feedback.primaryFeedback = m then 1 else 0) + countMsg r m := by
  simp only [countMsg, List.filter_cons]
  split
  · rename_i hp
    simp only [List.length_cons]
    split
    · omega
    · rename_i hq
      exact absurd (of_decide_eq_true hp) hq
  · rename_i hp
    split
    · rename_i hq
      exact absurd (decide_eq_true hq) hp
    · omega

lemma countMsg_add_le (recent : List Entry) {m m' : String} (h : m ≠ m') :
    countMsg recent m + countMsg recent m' ≤ recent.length := by
  induction recent with
  | nil => simp [countMsg]
  | cons e r ih =>
      rw [countMsg_cons, countMsg_cons, List.length_cons]
      by_cases h1 : e.feedback.primaryFeedback = m
      · rw [if_pos h1, if_neg fun hc => h (h1.symm.trans hc)]
        omega
      · rw [if_neg h1]
        split <;> omega

lemma keysIn_nodup (l : List String) : (keysIn l).Nodup := by
  induction l with
  | nil => simp [keysIn]
  | cons m rest ih =>
      simp only [keysIn]
      rw [List.nodup_cons]
      refine ⟨?_, List.Nodup.filter _ ih⟩
      intro hm
      have := List.of_mem_filter hm
      simp at this

lemma mem_keysIn {l : List String} {m : String} : m ∈ keysIn l ↔ m ∈ l := by
  induction l with
  | nil => simp [keysIn]
  | cons a rest ih =>
      simp only [keysIn, List.mem_cons, List.mem_filter, ih]
      constructor
      · rintro (rfl | ⟨hm, -⟩)
        · exact Or.inl rfl
        · exact Or.inr hm
      · rintro (rfl | hm)
        · exact Or.inl rfl
        · by_cases hma : m = a
          · exact Or.inl hma
          · exact Or.inr ⟨hm, by simpa using hma⟩

lemma countMsg_pos_mem {recent : List Entry} {m : String}
    (h : 0 < countMsg recent m) :
    ∃ e ∈ recent, e.feedback.primaryFeedback = m := by
  unfold countMsg at h
  rw [List.length_pos] at h
  obtain ⟨e, he⟩ := List.exists_mem_of_ne_nil _ h
  have h1 := List.mem_filter.mp he
  exact ⟨e, h1.1, by simpa using h1.2⟩

lemma pickLoop_no_qualify (n : ℕ) (l : List (String × ℕ)) :
    ∀ (mc : ℕ) (mf : String), (∀ p ∈ l, ¬ (10 * p.2 ≥ 7 * n)) →
      pickLoop n l mc mf = mf := by
  induction l with
  | nil => intro mc mf _; rfl
  | cons p rest ih =>
      intro mc mf h
      obtain ⟨m, c⟩ := p
      simp only [pickLoop]
      rw [if_neg fun hc => h (m, c) (List.mem_cons_self _ _) hc.2]
      exact ih mc mf fun q hq => h q (List.mem_cons_of_mem _ hq)

lemma pickLoop_only_empty (n : ℕ) (l : List (String × ℕ)) :
    ∀ mc : ℕ, (∀ p ∈ l, 10 * p.2 ≥ 7 * n → p.1 = "") →
      pickLoop n l mc "" = "" := by
  induction l with
  | nil => intro mc _; rfl
  | cons p rest ih =>
      intro mc h
      obtain ⟨m, c⟩ := p
      simp only [pickLoop]
      split
      · rename_i hcond
        have hm : m = "" := h (m, c) (List.mem_cons_self _ _) hcond.2
        rw [hm]
        exact ih c fun q hq => h q (List.mem_cons_of_mem _ hq)
      · exact ih mc fun q hq => h q (List.mem_cons_of_mem _ hq)

lemma pickLoop_unique (n : ℕ) (count : String → ℕ) (m : String) :
    ∀ keys : List String, keys.Nodup → m ∈ keys →
      (∀ k ∈ keys, k ≠ m → ¬ (10 * count k ≥ 7 * n)) →
      10 * count m ≥ 7 * n → 0 < count m →
      pickLoop n (keys.map fun k => (k, count k)) 0 "" = m := by
  intro keys
  induction keys with
  | nil =>
      intro _ hm
      simp at hm
  | cons a rest ih =>
      intro hnd hm hothers hthr hpos
      simp only [List.map_cons, pickLoop]
      by_cases ha : a = m
      · subst ha
        rw [if_pos ⟨hpos, hthr⟩]
        apply pickLoop_no_qualify
        intro p hp
        obtain ⟨k, hk, rfl⟩ := List.mem_map.mp hp
        have hka : k ≠ a := fun he => (List.nodup_cons.mp hnd).1 (he ▸ hk)
        exact hothers k (List.mem_cons_of_mem _ hk) hka
      · have haf : ¬ (10 * count a ≥ 7 * n) :=
          hothers a (List.mem_cons_self _ _) fun he => ha he
        rw [if_neg fun hc => haf hc.2]
        exact ih (List.nodup_cons.mp hnd).2
          ((List.mem_cons.mp hm).resolve_left fun he => ha he.symm)
          (fun k hk hkm => hothers k (List.mem_cons_of_mem _ hk) hkm) hthr hpos

/-- A five-frame history whose first four entries carry the empty primary
message `""` with `critical` priority and whose last entry is a distinct
`success` frame. -/
noncomputable def emptyMsgHist : List Entry :=
  [⟨0, ⟨"", [], "critical", ""⟩, ⟨0, 0, 0, 0⟩⟩,
   ⟨1, ⟨"", [], "critical", ""⟩, ⟨0, 0, 0, 0⟩⟩,
   ⟨2, ⟨"", [], "critical", ""⟩, ⟨0, 0, 0, 0⟩⟩,
   ⟨3, ⟨"", [], "critical", ""⟩, ⟨0, 0, 0, 0⟩⟩,
   ⟨4, ⟨"🌟 Amazing handstand form!", [], "success", ""⟩, ⟨0, 0, 0, 0⟩⟩]

/-- A five-frame history with the same non-empty message in 4 of 5 slots,
the most recent frame differing. -/
noncomputable def fourOfFiveHist : List Entry :=
  [⟨0, ⟨"✅ Excellent form!", ["Keep up this great technique"], "success", ""⟩, ⟨0, 0, 0, 0⟩⟩,
   ⟨1, ⟨"✅ Excellent form!", [], "success", ""⟩, ⟨0, 0, 0, 0⟩⟩,
   ⟨2, ⟨"✅ Excellent form!", [], "success", ""⟩, ⟨0, 0, 0, 0⟩⟩,
   ⟨3, ⟨"✅ Excellent form!", [], "success", ""⟩, ⟨0, 0, 0, 0⟩⟩,
   ⟨4, ⟨"📐 Keep your body straight", [], "major", ""⟩, ⟨0, 0, 0, 0⟩⟩]

/-- A five-frame history with five pairwise-distinct primary messages. -/
noncomputable def distinctHist : List Entry :=
  [⟨0, ⟨"a", [], "critical", ""⟩, ⟨0, 0, 0, 0⟩⟩,
   ⟨1, ⟨"b", [], "critical", ""⟩, ⟨0, 0, 0, 0⟩⟩,
   ⟨2, ⟨"c", [], "major", ""⟩, ⟨0, 0, 0, 0⟩⟩,
   ⟨3, ⟨"d", [], "minor", ""⟩, ⟨0, 0, 0, 0⟩⟩,
   ⟨4, ⟨"e", ["latest tip"], "success", "m"⟩, ⟨0, 0, 0, 0⟩⟩]

/-- C2 counterexample: in a window of 5 entries whose primary message `""`
occupies 4 of 5 slots (80% ≥ 70%), the filter does not emit that consensus
message with a representative's `critical` priority; the empty-string
sentinel of the reduction loop makes it fall back to the most recent
frame's feedback instead. -/
theorem getConsistentFeedback_empty_message_cex :
    10 * countMsg (lastN 5 emptyMsgHist) "" ≥ 7 * (lastN 5 emptyMsgHist).length ∧
    getConsistentFeedback emptyMsgHist =
      ⟨"🌟 Amazing handstand form!", [], "success", ""⟩ := by
  constructor
  · decide
  · decide

/-- C2 (amended): the filter works on the last 5 entries (or fewer); if some
NON-EMPTY primary message occurs in at least 70% of that window it is
emitted with the priority/tips/motivational of a representative window entry
holding it; if no non-empty message reaches 70% the most recent frame's
feedback is emitted unchanged.  Pushing the same non-empty message in 4 of
the last 5 frames yields that message; pushing 5 pairwise-distinct messages
yields the most recent frame's feedback. -/
theorem getConsistentFeedback_spec :
    (∀ hist : List Entry, List.IsSuffix (lastN 5 hist) hist ∧
      (lastN 5 hist).length = min 5 hist.length) ∧
    (∀ (hist : List Entry) (m : String), hist ≠ [] → m ≠ "" →
      10 * countMsg (lastN 5 hist) m ≥ 7 * (lastN 5 hist).length →
      ∃ e ∈ lastN 5 hist, e.feedback.primaryFeedback = m ∧
        getConsistentFeedback hist = e.feedback) ∧
    (∀ (hist : List Entry) (latest : Entry), hist.getLast? = some latest →
      (∀ m : String, m ≠ "" →
        10 * countMsg (lastN 5 hist) m < 7 * (lastN 5 hist).length) →
      getConsistentFeedback hist = latest.feedback) ∧
    getConsistentFeedback fourOfFiveHist =
      ⟨"✅ Excellent form!", ["Keep up this great technique"], "success", ""⟩ ∧
    getConsistentFeedback distinctHist =
      ⟨"e", ["latest tip"], "success", "m"⟩ := by
  refine ⟨?_, ?_, ?_, by decide, by decide⟩
  · intro hist
    refine ⟨List.drop_suffix _ _, ?_⟩
    simp only [lastN, List.length_drop]
    omega
  · intro hist m hne hm hthr
    have hl : 0 < hist.length := List.length_pos.mpr hne
    have hn1 : 0 < (lastN 5 hist).length := by
      simp only [lastN, List.length_drop]
      omega
    have hcpos : 0 < countMsg (lastN 5 hist) m := by omega
    obtain ⟨e0, he0, he0m⟩ := countMsg_pos_mem hcpos
    obtain ⟨latest, hlast⟩ :=
      Option.isSome_iff_exists.mp (List.getLast?_isSome.mpr hne)
    have hpick : pickLoop (lastN 5 hist).length (tally (lastN 5 hist)) 0 "" = m := by
      apply pickLoop_unique (lastN 5 hist).length (countMsg (lastN 5 hist)) m
        (keysIn ((lastN 5 hist).map fun e => e.feedback.primaryFeedback))
        (keysIn_nodup _)
        (mem_keysIn.mpr (List.mem_map.mpr ⟨e0, he0, he0m⟩))
        ?_ hthr hcpos
      intro k _ hkm hcthr
      have hsum := countMsg_add_le (lastN 5 hist) hkm
      omega
    have hfind : ∃ e', (lastN 5 hist).find?
        (fun f => f.feedback.primaryFeedback = m) = some e' :=
      Option.isSome_iff_exists.mp
        (List.find?_isSome.mpr ⟨e0, he0, by simp [he0m]⟩)
    obtain ⟨e', he'⟩ := hfind
    have hp' : e'.feedback.primaryFeedback = m := by
      simpa using List.find?_some he'
    have hm' : e' ∈ lastN 5 hist := List.mem_of_find?_eq_some he'
    refine ⟨e', hm', hp', ?_⟩
    simp only [getConsistentFeedback]
    rw [hlast]
    dsimp only
    rw [hpick, if_neg hm, he']
    rw [← hp']
  · intro hist latest hlast h
    simp only [getConsistentFeedback]
    rw [hlast]
    dsimp only
    have hpick : pickLoop (lastN 5 hist).length (tally (lastN 5 hist)) 0 "" = "" := by
      apply pickLoop_only_empty
      intro p hp hthr
      obtain ⟨k, _, rfl⟩ := List.mem_map.mp hp
      by_contra hk0
      exact absurd hthr (not_le.mpr (h k hk0))
    rw [hpick, if_pos rfl]

/-- C2 witness: in a window where "✅ Excellent form!" fills 4 of 5 slots,
the consensus branch of the amended theorem applies. -/
theorem getConsistentFeedback_spec_witness :
    ∃ e ∈ lastN 5 fourOfFiveHist,
      e.feedback.primaryFeedback = "✅ Excellent form!" ∧
      getConsistentFeedback fourOfFiveHist = e.feedback :=
  getConsistentFeedback_spec.2.1 fourOfFiveHist "✅ Excellent form!"
    (by simp [fourOfFiveHist]) (by decide) (by decide)

end PoseVerification
